import Mathlib

/-!
# Card-key validation endpoint (`api/validate.js`)

A shallow embedding of the request handler exported by `api/validate.js` and of its helper
`getServerTime`, followed by theorems about the handler's observable behaviour.

The handler talks to three things outside itself: the record store (one `maybeSingle` read and
one `get_server_time` remote call), the JavaScript `Date` built-ins, and the host's wall clock.
Each of them is an explicit input of the model, so that every definition is an ordinary
computable function:

* `DateLib` carries `Date.parse` and `Date.prototype.toISOString`;
* `Env` scripts what the two store calls settle to and what `new Date()` reads;
* `Outcome` records the response that was sent, the store calls that were issued, what was
  written to the operator log, and an exception that escaped the handler, if any.
-/

namespace KeysApi

/-! ## JavaScript values and dates -/

/-- A scalar JavaScript value as it appears in a row returned by the store or in a JSON body.
`undefined` is what reading a missing property gives.  Numbers are integer valued. -/
inductive JsVal where
  | undefined
  | null
  | bool (b : Bool)
  | num (n : Int)
  | str (s : String)
  deriving DecidableEq, Repr

/-- JavaScript `ToBoolean`, the test behind `!x`, `if (x)` and `a && b`. -/
def truthy : JsVal → Bool
  | .undefined => false
  | .null => false
  | .bool b => b
  | .num n => n != 0
  | .str s => s != ""

/-- A thrown JavaScript value: the error's name and its message. -/
structure Exn where
  name : String
  message : String
  deriving DecidableEq, Repr

/-- The `Date` built-ins the handler relies on.  `parse` is `Date.parse`: the time value in
milliseconds since the epoch, or `none` for `NaN`.  `toISOString` formats a valid time value. -/
structure DateLib where
  parse : String → Option Int
  toISOString : Int → String

/-- A JavaScript `Date` object: its time value, `none` standing for `NaN` (an invalid date). -/
abbrev JsDate := Option Int

/-- The largest magnitude of a time value, 8.64e15 milliseconds. -/
def maxTime : Int := 8640000000000000

/-- ECMAScript `TimeClip`. -/
def timeClip (t : Int) : JsDate :=
  if t.natAbs ≤ maxTime.natAbs then some t else none

/-- The constructor call `new Date(value)` with one argument. -/
def newDate (lib : DateLib) : JsVal → JsDate
  | .undefined => none
  | .null => some 0
  | .bool b => some (if b then 1 else 0)
  | .num n => timeClip n
  | .str s => (lib.parse s).bind timeClip

/-- The comparison `a < b` of two `Date` objects: both are converted to their time values and
a comparison involving `NaN` is false. -/
def dateLt : JsDate → JsDate → Bool
  | some x, some y => decide (x < y)
  | _, _ => false

/-- The comparison `a > b` of two `Date` objects. -/
def dateGt (a b : JsDate) : Bool := dateLt b a

/-- The method call `d.toISOString()`, which throws a `RangeError` on an invalid date. -/
def toISOString (lib : DateLib) : JsDate → Except Exn String
  | some t => .ok (lib.toISOString t)
  | none => .error ⟨"RangeError", "Invalid time value"⟩

/-! ## The store, the request and the response -/

/-- A row of the `card_keys` table as returned by `select('*')`; the columns the handler
reads. -/
structure CardKey where
  key : JsVal
  note : JsVal
  is_active : JsVal
  used_at : JsVal
  valid_from : JsVal
  valid_to : JsVal
  total_days : JsVal
  remaining_days : JsVal
  deriving DecidableEq, Repr

/-- What an awaited store call settles to: the promise resolves to a `data`/`error` pair (the
error being `null` or an error object, kept here as its detail text), or it rejects. -/
inductive Settled (α : Type) where
  | resolved (data : α) (error : Option String)
  | rejected (reason : Exn)

/-- The world around one request. -/
structure Env where
  /-- Result of `supabase.from('card_keys').select('*').eq('key', key).maybeSingle()`. -/
  maybeSingle : String → Settled (Option CardKey)
  /-- Result of `supabase.rpc('get_server_time')`. -/
  rpc : Settled JsVal
  /-- Time value read by `new Date()` without arguments (the host clock). -/
  now : Int

/-- The parsed query string, `req.query`. -/
structure Query where
  key : Option String
  deriving DecidableEq, Repr

/-- The incoming request; `query` is `none` when the host supplies no `req.query` object. -/
structure Request where
  method : String
  query : Option Query
  deriving DecidableEq, Repr

/-- Body of a sent response: nothing (`res.end()`) or a JSON object (`res.json(obj)`). -/
inductive Body where
  | empty
  | json (props : List (String × JsVal))
  deriving DecidableEq, Repr

/-- A response as sent. -/
structure Response where
  headers : List (String × String)
  status : Nat
  body : Body
  deriving DecidableEq, Repr

/-- A call issued to the store. -/
inductive Call where
  | selectCardKey (key : String)
  | getServerTime
  deriving DecidableEq, Repr

/-- Everything observable about one run of the handler. -/
structure Outcome where
  response : Option Response
  calls : List Call
  log : List (String × String)
  uncaught : Option Exn
  deriving DecidableEq, Repr

/-- The object serialised by `res.json`: `JSON.stringify` leaves out properties whose value is
`undefined`. -/
def jsonBody (props : List (String × JsVal)) : Body :=
  .json (props.filter fun p => p.2 != JsVal.undefined)

/-- Value of a property of a response body, `undefined` when the body does not have it. -/
def Body.get : Body → String → JsVal
  | .empty, _ => .undefined
  | .json props, name => ((props.find? fun p => p.1 == name).map Prod.snd).getD .undefined

/-- The property names of a response body, in order. -/
def Body.names : Body → List String
  | .empty => []
  | .json props => props.map Prod.fst

/-! ## The program -/

/-- The headers set at lines 18-19, before anything else happens. -/
def corsHeaders : List (String × String) :=
  [("Access-Control-Allow-Origin", "*"), ("Access-Control-Allow-Methods", "GET, OPTIONS")]

/-- `getServerTime` (lines 10-14): the store's clock when the call reports no error and
returns data, the host clock otherwise.  A rejected call makes the `await` throw. -/
def getServerTime (lib : DateLib) (env : Env) : Except Exn JsDate :=
  match env.rpc with
  | .rejected reason => .error reason
  | .resolved data error =>
    if error.isNone && truthy data then .ok (newDate lib data) else .ok (some env.now)

/-- The rule chain of lines 62-82: `(isValid, message, status)`. -/
def statusRules (data : CardKey) (validFrom validTo serverTime : JsDate) :
    Bool × String × String :=
  if !truthy data.is_active then (false, "卡密已停用", "disabled")
  else if truthy data.used_at then (false, "卡密已使用", "used")
  else if dateLt validTo serverTime then (false, "卡密已过期", "expired")
  else if dateGt validFrom serverTime then (false, "卡密未生效", "pending")
  else (true, "卡密有效", "active")

/-- The `catch` block of lines 100-103. -/
def catchBlock (calls : List Call) (log : List (String × String)) (err : Exn) : Outcome :=
  { response := some ⟨corsHeaders, 500, jsonBody [("error", .str "服务器内部错误")]⟩
    calls := calls
    log := log ++ [("API处理异常:", err.name ++ ": " ++ err.message)]
    uncaught := none }

/-- A response sent with nothing thrown. -/
def sent (calls : List Call) (log : List (String × String)) (status : Nat) (body : Body) :
    Outcome :=
  { response := some ⟨corsHeaders, status, body⟩, calls := calls, log := log, uncaught := none }

/-- The exported request handler (lines 16-104). -/
def handler (lib : DateLib) (env : Env) (req : Request) : Outcome :=
  if req.method = "OPTIONS" then sent [] [] 200 .empty
  else if req.method ≠ "GET" then sent [] [] 405 (jsonBody [("error", .str "仅支持GET方法")])
  else
    match req.query with
    | none =>
      -- destructuring `undefined` throws outside the `try`
      { response := none, calls := [], log := []
        uncaught := some ⟨"TypeError",
          "Cannot destructure property 'key' of 'req.query' as it is undefined."⟩ }
    | some query =>
      match query.key with
      | none => sent [] [] 400 (jsonBody [("error", .str "缺少卡密参数: key")])
      | some key =>
        if key = "" then sent [] [] 400 (jsonBody [("error", .str "缺少卡密参数: key")])
        else
          let calls := [Call.selectCardKey key]
          match env.maybeSingle key with
          | .rejected reason => catchBlock calls [] reason
          | .resolved _ (some detail) =>
            sent calls [("数据库查询错误:", detail)] 500
              (jsonBody [("error", .str "数据库查询失败")])
          | .resolved none none =>
            sent calls [] 200 (jsonBody [("valid", .bool false), ("message", .str "卡密不存在")])
          | .resolved (some data) none =>
            let calls := calls ++ [Call.getServerTime]
            match getServerTime lib env with
            | .error err => catchBlock calls [] err
            | .ok serverTime =>
              let validFrom := newDate lib data.valid_from
              let validTo := newDate lib data.valid_to
              let (isValid, message, status) := statusRules data validFrom validTo serverTime
              -- `res.status(200)` runs first, then the argument object is built
              match toISOString lib serverTime with
              | .error err => catchBlock calls [] err
              | .ok iso =>
                sent calls [] 200 (jsonBody
                  [("valid", .bool isValid),
                   ("status", .str status),
                   ("message", .str message),
                   ("key", data.key),
                   ("note", data.note),
                   ("activated_at", data.valid_from),
                   ("expires_at", data.valid_to),
                   ("current_server_time", .str iso),
                   ("total_days", data.total_days),
                   ("remaining_days", data.remaining_days)])

/-! ## A concrete `Date` library for worked examples

`isoLib` implements the two built-ins on the ECMAScript date-time string format in its full
UTC form `YYYY-MM-DDTHH:mm:ss.sssZ` (with the expanded six digit year outside 0..9999 on output).
Its parser recognises that one form only; engines accept more, and none accepts a string
such as `"not a timestamp"`. -/

/-- Days since the epoch of a proleptic Gregorian calendar date. -/
def daysFromCivil (y m d : Int) : Int :=
  let y := if m ≤ 2 then y - 1 else y
  let era := y / 400
  let yoe := y - era * 400
  let doy := (153 * (if m > 2 then m - 3 else m + 9) + 2) / 5 + d - 1
  let doe := yoe * 365 + yoe / 4 - yoe / 100 + doy
  era * 146097 + doe - 719468

/-- Calendar date `(year, month, day)` of a day number since the epoch. -/
def civilFromDays (z : Int) : Int × Int × Int :=
  let z := z + 719468
  let era := z / 146097
  let doe := z - era * 146097
  let yoe := (doe - doe / 1460 + doe / 36524 - doe / 146096) / 365
  let doy := doe - (365 * yoe + yoe / 4 - yoe / 100)
  let mp := (5 * doy + 2) / 153
  let d := doy - (153 * mp + 2) / 5 + 1
  let m := if mp < 10 then mp + 3 else mp - 9
  (if m ≤ 2 then yoe + era * 400 + 1 else yoe + era * 400, m, d)

/-- The last `width` decimal digits of `n`. -/
def pad : Nat → Nat → List Char
  | 0, _ => []
  | width + 1, n => pad width (n / 10) ++ [Char.ofNat (48 + n % 10)]

/-- Value of a string of decimal digits. -/
def digits (cs : List Char) : Option Nat :=
  cs.foldl (fun acc c => acc.bind fun a =>
    if c.isDigit then some (10 * a + (c.toNat - 48)) else none) (some 0)

/-- Number of days of a month. -/
def daysInMonth (y m : Nat) : Nat :=
  if m = 2 then (if y % 4 = 0 ∧ (y % 100 ≠ 0 ∨ y % 400 = 0) then 29 else 28)
  else if m = 4 ∨ m = 6 ∨ m = 9 ∨ m = 11 then 30 else 31

/-- Time value of `YYYY-MM-DDTHH:mm:ss.sssZ`. -/
def parseIso (s : String) : Option Int :=
  match s.data with
  | [y1, y2, y3, y4, '-', m1, m2, '-', d1, d2, 'T', h1, h2, ':', n1, n2, ':', s1, s2, '.',
      f1, f2, f3, 'Z'] =>
    (digits [y1, y2, y3, y4]).bind fun y =>
    (digits [m1, m2]).bind fun m =>
    (digits [d1, d2]).bind fun d =>
    (digits [h1, h2]).bind fun h =>
    (digits [n1, n2]).bind fun n =>
    (digits [s1, s2]).bind fun sec =>
    (digits [f1, f2, f3]).bind fun ms =>
    if 1 ≤ m ∧ m ≤ 12 ∧ 1 ≤ d ∧ d ≤ daysInMonth y m ∧ h ≤ 23 ∧ n ≤ 59 ∧ sec ≤ 59 then
      some (daysFromCivil y m d * 86400000 + (((h * 60 + n) * 60 + sec) * 1000 + ms : Nat))
    else none
  | _ => none

/-- The string `YYYY-MM-DDTHH:mm:ss.sssZ` of a time value. -/
def formatIso (t : Int) : String :=
  let day := t / 86400000
  let ms := (t % 86400000).toNat
  let (y, m, d) := civilFromDays day
  let year := if 0 ≤ y ∧ y ≤ 9999 then pad 4 y.toNat
    else (if y < 0 then '-' else '+') :: pad 6 y.natAbs
  String.mk (year ++ '-' :: pad 2 m.toNat ++ '-' :: pad 2 d.toNat ++ 'T' :: pad 2 (ms / 3600000)
    ++ ':' :: pad 2 (ms / 60000 % 60) ++ ':' :: pad 2 (ms / 1000 % 60) ++ '.' :: pad 3 (ms % 1000)
    ++ ['Z'])

/-- The example library. -/
def isoLib : DateLib := ⟨parseIso, formatIso⟩

/-! ## Data for the worked examples -/

/-- A row that is active and unused, valid from 2024-01-01 to 2024-06-01 (UTC). -/
def sampleRow : CardKey :=
  { key := .str "ABCD-1234"
    note := .str "trial"
    is_active := .bool true
    used_at := .null
    valid_from := .str "2024-01-01T00:00:00.000Z"
    valid_to := .str "2024-06-01T00:00:00.000Z"
    total_days := .num 152
    remaining_days := .num 92 }

/-- A store whose lookup resolves to `row` without error for every key and whose clock call
settles to `time`; the host clock reads 2024-03-01T00:00:00.000Z. -/
def storeWith (row : Option CardKey) (time : Settled JsVal) : Env :=
  { maybeSingle := fun _ => .resolved row none, rpc := time, now := 1709251200000 }

/-- A store whose lookup reports an error with the given detail. -/
def brokenStore (detail : String) : Env :=
  { maybeSingle := fun _ => .resolved none (some detail), rpc := .resolved .null none
    now := 1709251200000 }

/-- A store whose lookup call rejects with the given reason. -/
def rejectingStore (reason : Exn) : Env :=
  { maybeSingle := fun _ => .rejected reason, rpc := .resolved .null none
    now := 1709251200000 }

/-- The request `GET ?key=k`. -/
def getKey (k : String) : Request := ⟨"GET", some ⟨some k⟩⟩

/-! ## General facts about the handler -/

/-- The response to a GET with a key whose row was found, once the trusted time is a valid
date. -/
theorem handler_found (lib : DateLib) (env : Env) (req : Request) (k : String) (data : CardKey)
    (now : Int) (hm : req.method = "GET") (hq : req.query = some ⟨some k⟩) (hk : k ≠ "")
    (hfound : env.maybeSingle k = .resolved (some data) none)
    (hnow : getServerTime lib env = .ok (some now)) :
    handler lib env req =
      sent [Call.selectCardKey k, Call.getServerTime] [] 200 (jsonBody
        [("valid", .bool (statusRules data (newDate lib data.valid_from)
            (newDate lib data.valid_to) (some now)).1),
         ("status", .str (statusRules data (newDate lib data.valid_from)
            (newDate lib data.valid_to) (some now)).2.2),
         ("message", .str (statusRules data (newDate lib data.valid_from)
            (newDate lib data.valid_to) (some now)).2.1),
         ("key", data.key),
         ("note", data.note),
         ("activated_at", data.valid_from),
         ("expires_at", data.valid_to),
         ("current_server_time", .str (lib.toISOString now)),
         ("total_days", data.total_days),
         ("remaining_days", data.remaining_days)]) := by
  simp [handler, hm, hq, hk, hfound, hnow, toISOString]

/-- Reading `valid` back from a body that starts with the three computed properties. -/
theorem get_valid (v s m : JsVal) (rest : List (String × JsVal)) (hv : v ≠ .undefined) :
    (jsonBody (("valid", v) :: ("status", s) :: ("message", m) :: rest)).get "valid" = v := by
  simp [jsonBody, Body.get, List.filter_cons, hv]

/-- Reading `status` back from a body that starts with the three computed properties. -/
theorem get_status (v s m : JsVal) (rest : List (String × JsVal)) (hv : v ≠ .undefined)
    (hs : s ≠ .undefined) :
    (jsonBody (("valid", v) :: ("status", s) :: ("message", m) :: rest)).get "status" = s := by
  simp [jsonBody, Body.get, List.filter_cons, hv, hs]

/-- Reading a property of a serialised object: the first property of that name whose value is
not `undefined`. -/
theorem get_jsonBody (props : List (String × JsVal)) (name : String) :
    (jsonBody props).get name =
      ((props.find? fun p => p.2 != JsVal.undefined && p.1 == name).map Prod.snd).getD
        .undefined := by
  simp only [jsonBody, Body.get, List.find?_filter]
  congr 3
  funext a
  by_cases h1 : a.2 = JsVal.undefined <;> by_cases h2 : a.1 = name <;> simp [h1, h2]

/-- Reading `current_server_time` back from the body of a validation result. -/
theorem get_time (v s m a b c d t e f : JsVal) (ht : t ≠ .undefined) :
    (jsonBody [("valid", v), ("status", s), ("message", m), ("key", a), ("note", b),
      ("activated_at", c), ("expires_at", d), ("current_server_time", t),
      ("total_days", e), ("remaining_days", f)]).get "current_server_time" = t := by
  rw [get_jsonBody]
  simp [List.find?_cons, ht]

/-- The rule chain ends in `active` with the flag set, or in another status with the flag
clear. -/
theorem statusRules_cases (data : CardKey) (a b c : JsDate) :
    statusRules data a b c = (true, "卡密有效", "active") ∨
    ∃ m s, statusRules data a b c = (false, m, s) ∧ s ≠ "active" := by
  unfold statusRules
  split_ifs
  · exact Or.inr ⟨_, _, rfl, by decide⟩
  · exact Or.inr ⟨_, _, rfl, by decide⟩
  · exact Or.inr ⟨_, _, rfl, by decide⟩
  · exact Or.inr ⟨_, _, rfl, by decide⟩
  · exact Or.inl rfl

/-- The four shapes a response body can have: empty, a lone `error`, the not-found pair, or a
validation result whose first three properties come from the rule chain. -/
theorem body_cases (lib : DateLib) (env : Env) (req : Request) (resp : Response)
    (h : (handler lib env req).response = some resp) :
    resp.body = .empty ∨
    (∃ msg, resp.body = .json [("error", .str msg)]) ∨
    resp.body = .json [("valid", .bool false), ("message", .str "卡密不存在")] ∨
    ∃ (data : CardKey) (now : Int) (rest : List (String × JsVal)),
      resp.body = jsonBody
        (("valid", .bool (statusRules data (newDate lib data.valid_from)
            (newDate lib data.valid_to) (some now)).1) ::
         ("status", .str (statusRules data (newDate lib data.valid_from)
            (newDate lib data.valid_to) (some now)).2.2) ::
         ("message", .str (statusRules data (newDate lib data.valid_from)
            (newDate lib data.valid_to) (some now)).2.1) :: rest) := by
  unfold handler at h
  split_ifs at h with h1 h2
  · simp [sent] at h; subst h; simp
  · simp [sent, jsonBody] at h; subst h; simp
  · split at h
    · simp at h
    · split at h
      · simp [sent, jsonBody] at h; subst h; simp
      · split_ifs at h
        · simp [sent, jsonBody] at h; subst h; simp
        · simp only at h
          split at h
          · simp [catchBlock, jsonBody] at h; subst h; simp
          · simp [sent, jsonBody] at h; subst h; simp
          · simp [sent, jsonBody] at h; subst h; simp
          · split at h
            · simp [catchBlock, jsonBody] at h; subst h; simp
            · rename_i data _ _ serverTime _
              cases serverTime with
              | none => simp [toISOString, catchBlock, jsonBody] at h; subst h; simp
              | some now =>
                simp only [toISOString, sent, Option.some.injEq] at h
                subst h
                exact Or.inr (Or.inr (Or.inr ⟨data, now, _, rfl⟩))

/-- `getServerTime` falls back to the host clock when the call reports an error or its data
is falsy. -/
theorem getServerTime_fallback (lib : DateLib) (env : Env) (v : JsVal) (e : Option String)
    (hrpc : env.rpc = .resolved v e) (hcase : e.isSome = true ∨ truthy v = false) :
    getServerTime lib env = .ok (some env.now) := by
  unfold getServerTime
  rw [hrpc]
  rcases hcase with he | hv
  · cases e with
    | none => simp at he
    | some d => simp
  · simp [hv]

/-- `getServerTime` converts the store's value when the call reports no error and returns
data. -/
theorem getServerTime_store (lib : DateLib) (env : Env) (v : JsVal)
    (hrpc : env.rpc = .resolved v none) (hv : truthy v = true) :
    getServerTime lib env = .ok (newDate lib v) := by
  unfold getServerTime
  rw [hrpc]
  simp [hv]

/-- The validation result for a found row carries the trusted time and what the rule chain
computes at it. -/
theorem found_result (lib : DateLib) (env : Env) (req : Request) (k : String) (data : CardKey)
    (now : Int) (hm : req.method = "GET") (hq : req.query = some ⟨some k⟩) (hk : k ≠ "")
    (hfound : env.maybeSingle k = .resolved (some data) none)
    (hnow : getServerTime lib env = .ok (some now)) :
    ∃ resp, (handler lib env req).response = some resp ∧ resp.status = 200 ∧
      resp.body.get "current_server_time" = .str (lib.toISOString now) ∧
      resp.body.get "status" = .str (statusRules data (newDate lib data.valid_from)
        (newDate lib data.valid_to) (some now)).2.2 ∧
      resp.body.get "valid" = .bool (statusRules data (newDate lib data.valid_from)
        (newDate lib data.valid_to) (some now)).1 := by
  rw [handler_found lib env req k data now hm hq hk hfound hnow]
  refine ⟨_, rfl, rfl, ?_, ?_, ?_⟩
  · exact get_time _ _ _ _ _ _ _ _ _ _ (by simp)
  · exact get_status _ _ _ _ (by simp) (by simp)
  · exact get_valid _ _ _ _ (by simp)

/-- The status and the validity flag of the response for a found row are the ones the rule
chain computes at the trusted time. -/
theorem found_status (lib : DateLib) (env : Env) (req : Request) (k : String) (data : CardKey)
    (now : Int) (hm : req.method = "GET") (hq : req.query = some ⟨some k⟩) (hk : k ≠ "")
    (hfound : env.maybeSingle k = .resolved (some data) none)
    (hnow : getServerTime lib env = .ok (some now)) :
    ∃ resp, (handler lib env req).response = some resp ∧ resp.status = 200 ∧
      resp.body.get "status" = .str (statusRules data (newDate lib data.valid_from)
        (newDate lib data.valid_to) (some now)).2.2 ∧
      resp.body.get "valid" = .bool (statusRules data (newDate lib data.valid_from)
        (newDate lib data.valid_to) (some now)).1 := by
  rw [handler_found lib env req k data now hm hq hk hfound hnow]
  refine ⟨_, rfl, rfl, ?_, ?_⟩
  · exact get_status _ _ _ _ (by simp) (by simp)
  · exact get_valid _ _ _ _ (by simp)

/-! ## The decision table -/

/-- C1: a found row with `is_active` true and `used_at` null, looked at a trusted time `now`
with `validFrom ≤ now ≤ validTo` (either bound may be met exactly), is answered with HTTP 200,
status `active` and `valid = true`. -/
theorem active_inside_window (lib : DateLib) (env : Env) (req : Request) (k : String)
    (data : CardKey) (now validFrom validTo : Int)
    (hm : req.method = "GET") (hq : req.query = some ⟨some k⟩) (hk : k ≠ "")
    (hfound : env.maybeSingle k = .resolved (some data) none)
    (hactive : data.is_active = .bool true) (hused : data.used_at = .null)
    (hnow : getServerTime lib env = .ok (some now))
    (hfrom : newDate lib data.valid_from = some validFrom)
    (hto : newDate lib data.valid_to = some validTo)
    (hlo : validFrom ≤ now) (hhi : now ≤ validTo) :
    ∃ resp, (handler lib env req).response = some resp ∧ resp.status = 200 ∧
      resp.body.get "status" = .str "active" ∧ resp.body.get "valid" = .bool true := by
  have h := found_status lib env req k data now hm hq hk hfound hnow
  have hr : statusRules data (some validFrom) (some validTo) (some now)
      = (true, "卡密有效", "active") := by
    simp [statusRules, hactive, hused, truthy, dateLt, dateGt, not_lt.mpr hlo, not_lt.mpr hhi]
  rw [hfrom, hto, hr] at h
  exact h

/-- C1 at both boundaries at once: the window is the single instant 2024-01-01T00:00:00Z and
the store's clock reads exactly that instant. -/
theorem active_inside_window_witness :
    ∃ resp, (handler isoLib
        (storeWith (some { sampleRow with valid_to := .str "2024-01-01T00:00:00.000Z" })
          (.resolved (.str "2024-01-01T00:00:00.000Z") none))
        (getKey "ABCD-1234")).response = some resp ∧ resp.status = 200 ∧
      resp.body.get "status" = .str "active" ∧ resp.body.get "valid" = .bool true :=
  active_inside_window isoLib _ _ "ABCD-1234" _ 1704067200000 1704067200000 1704067200000
    rfl rfl (by decide) rfl rfl rfl (by rfl) (by decide) (by decide) (by decide) (by decide)

/-- C2: a found row with `is_active` false is answered with status `disabled` and
`valid = false`, whatever its other columns hold and whatever instant the trusted time is. -/
theorem disabled_wins (lib : DateLib) (env : Env) (req : Request) (k : String)
    (data : CardKey) (now : Int)
    (hm : req.method = "GET") (hq : req.query = some ⟨some k⟩) (hk : k ≠ "")
    (hfound : env.maybeSingle k = .resolved (some data) none)
    (hactive : data.is_active = .bool false)
    (hnow : getServerTime lib env = .ok (some now)) :
    ∃ resp, (handler lib env req).response = some resp ∧ resp.status = 200 ∧
      resp.body.get "status" = .str "disabled" ∧ resp.body.get "valid" = .bool false := by
  have h := found_status lib env req k data now hm hq hk hfound hnow
  have hr : statusRules data (newDate lib data.valid_from) (newDate lib data.valid_to)
      (some now) = (false, "卡密已停用", "disabled") := by
    simp [statusRules, hactive, truthy]
  rw [hr] at h
  exact h

/-- C2 on a row that is disabled, used and expired at once (the host clock, 2024-03-01, is the
trusted time because the clock call reports an error). -/
theorem disabled_wins_witness :
    ∃ resp, (handler isoLib
        (storeWith (some { sampleRow with
            is_active := .bool false
            used_at := .str "2024-01-15T08:30:00.000Z"
            valid_to := .str "2024-02-01T00:00:00.000Z" })
          (.resolved .null (some "connection refused")))
        (getKey "ABCD-1234")).response = some resp ∧ resp.status = 200 ∧
      resp.body.get "status" = .str "disabled" ∧ resp.body.get "valid" = .bool false :=
  disabled_wins isoLib _ _ "ABCD-1234" _ 1709251200000 rfl rfl (by decide) rfl rfl (by rfl)

/-- C3: a found row with `is_active` true whose `used_at` holds a timestamp is answered with
status `used` and `valid = false`, whatever its window is and whatever instant the trusted
time is. -/
theorem used_wins (lib : DateLib) (env : Env) (req : Request) (k : String)
    (data : CardKey) (now : Int) (usedAt : String)
    (hm : req.method = "GET") (hq : req.query = some ⟨some k⟩) (hk : k ≠ "")
    (hfound : env.maybeSingle k = .resolved (some data) none)
    (hactive : data.is_active = .bool true)
    (hused : data.used_at = .str usedAt) (hset : usedAt ≠ "")
    (hnow : getServerTime lib env = .ok (some now)) :
    ∃ resp, (handler lib env req).response = some resp ∧ resp.status = 200 ∧
      resp.body.get "status" = .str "used" ∧ resp.body.get "valid" = .bool false := by
  have h := found_status lib env req k data now hm hq hk hfound hnow
  have hr : statusRules data (newDate lib data.valid_from) (newDate lib data.valid_to)
      (some now) = (false, "卡密已使用", "used") := by
    simp [statusRules, hactive, hused, hset, truthy]
  rw [hr] at h
  exact h

/-- C3 on a used row that is still inside its window (trusted time 2024-03-01 from the
store). -/
theorem used_wins_witness :
    ∃ resp, (handler isoLib
        (storeWith (some { sampleRow with used_at := .str "2024-01-15T08:30:00.000Z" })
          (.resolved (.str "2024-03-01T00:00:00.000Z") none))
        (getKey "ABCD-1234")).response = some resp ∧ resp.status = 200 ∧
      resp.body.get "status" = .str "used" ∧ resp.body.get "valid" = .bool false :=
  used_wins isoLib _ _ "ABCD-1234" _ 1709251200000 "2024-01-15T08:30:00.000Z"
    rfl rfl (by decide) rfl rfl rfl (by decide) (by rfl)

/-- C4: a found row with `is_active` true, `used_at` null and `validTo` strictly before the
trusted time is answered with status `expired` and `valid = false`, whatever `valid_from`
holds. -/
theorem expired_before_pending (lib : DateLib) (env : Env) (req : Request) (k : String)
    (data : CardKey) (now validTo : Int)
    (hm : req.method = "GET") (hq : req.query = some ⟨some k⟩) (hk : k ≠ "")
    (hfound : env.maybeSingle k = .resolved (some data) none)
    (hactive : data.is_active = .bool true) (hused : data.used_at = .null)
    (hnow : getServerTime lib env = .ok (some now))
    (hto : newDate lib data.valid_to = some validTo) (hpast : validTo < now) :
    ∃ resp, (handler lib env req).response = some resp ∧ resp.status = 200 ∧
      resp.body.get "status" = .str "expired" ∧ resp.body.get "valid" = .bool false := by
  have h := found_status lib env req k data now hm hq hk hfound hnow
  have hr : statusRules data (newDate lib data.valid_from) (some validTo) (some now)
      = (false, "卡密已过期", "expired") := by
    simp [statusRules, hactive, hused, truthy, dateLt, hpast]
  rw [hto, hr] at h
  exact h

/-- C4 on a row whose `validTo` (2024-02-01) is in the past and whose `validFrom` (2024-06-01)
is in the future at the trusted time 2024-03-01: it is `expired`, not `pending`. -/
theorem expired_before_pending_witness :
    ∃ resp, (handler isoLib
        (storeWith (some { sampleRow with
            valid_from := .str "2024-06-01T00:00:00.000Z"
            valid_to := .str "2024-02-01T00:00:00.000Z" })
          (.resolved (.str "2024-03-01T00:00:00.000Z") none))
        (getKey "ABCD-1234")).response = some resp ∧ resp.status = 200 ∧
      resp.body.get "status" = .str "expired" ∧ resp.body.get "valid" = .bool false :=
  expired_before_pending isoLib _ _ "ABCD-1234" _ 1709251200000 1706745600000
    rfl rfl (by decide) rfl rfl rfl (by rfl) (by decide) (by decide)

/-- C5: a found row with `is_active` true, `used_at` null, `validTo` not before the trusted
time and `validFrom` strictly after it is answered with status `pending` and
`valid = false`. -/
theorem pending_before_start (lib : DateLib) (env : Env) (req : Request) (k : String)
    (data : CardKey) (now validFrom validTo : Int)
    (hm : req.method = "GET") (hq : req.query = some ⟨some k⟩) (hk : k ≠ "")
    (hfound : env.maybeSingle k = .resolved (some data) none)
    (hactive : data.is_active = .bool true) (hused : data.used_at = .null)
    (hnow : getServerTime lib env = .ok (some now))
    (hfrom : newDate lib data.valid_from = some validFrom)
    (hto : newDate lib data.valid_to = some validTo)
    (hlive : now ≤ validTo) (hfuture : now < validFrom) :
    ∃ resp, (handler lib env req).response = some resp ∧ resp.status = 200 ∧
      resp.body.get "status" = .str "pending" ∧ resp.body.get "valid" = .bool false := by
  have h := found_status lib env req k data now hm hq hk hfound hnow
  have hr : statusRules data (some validFrom) (some validTo) (some now)
      = (false, "卡密未生效", "pending") := by
    simp [statusRules, hactive, hused, truthy, dateLt, dateGt, not_lt.mpr hlive, hfuture]
  rw [hfrom, hto, hr] at h
  exact h

/-- C5 on a row valid from 2024-04-01 to 2024-06-01, seen at the trusted time 2024-03-01. -/
theorem pending_before_start_witness :
    ∃ resp, (handler isoLib
        (storeWith (some { sampleRow with valid_from := .str "2024-04-01T00:00:00.000Z" })
          (.resolved (.str "2024-03-01T00:00:00.000Z") none))
        (getKey "ABCD-1234")).response = some resp ∧ resp.status = 200 ∧
      resp.body.get "status" = .str "pending" ∧ resp.body.get "valid" = .bool false :=
  pending_before_start isoLib _ _ "ABCD-1234" _ 1709251200000 1711929600000 1717200000000
    rfl rfl (by decide) rfl rfl rfl (by rfl) (by decide) (by decide) (by decide) (by decide)

/-! ## Responses as a whole -/

/-- C6: in every response the handler sends, `valid` is `true` exactly when `status` is
`active`; a response with any other status has `valid = false`, and so has the response for a
key that was not found. -/
theorem valid_iff_active (lib : DateLib) (env : Env) (req : Request) (resp : Response)
    (h : (handler lib env req).response = some resp) :
    (resp.body.get "valid" = .bool true ↔ resp.body.get "status" = .str "active") ∧
    (∀ s, resp.body.get "status" = .str s → s ≠ "active" →
      resp.body.get "valid" = .bool false) ∧
    (∀ k, req.method = "GET" → req.query = some ⟨some k⟩ → k ≠ "" →
      env.maybeSingle k = .resolved none none → resp.body.get "valid" = .bool false) := by
  refine ⟨?_, ?_, ?_⟩
  · rcases body_cases lib env req resp h with hb | ⟨msg, hb⟩ | hb | ⟨data, now, rest, hb⟩
    · rw [hb]; simp [Body.get]
    · rw [hb]; simp [Body.get]
    · rw [hb]; simp [Body.get]
    · rw [hb, get_valid _ _ _ _ (by simp), get_status _ _ _ _ (by simp) (by simp)]
      rcases statusRules_cases data (newDate lib data.valid_from) (newDate lib data.valid_to)
        (some now) with hr | ⟨m, s, hr, hs⟩
      · rw [hr]; simp
      · rw [hr]; simp [hs]
  · intro s hst hs
    rcases body_cases lib env req resp h with hb | ⟨msg, hb⟩ | hb | ⟨data, now, rest, hb⟩
    · rw [hb] at hst; simp [Body.get] at hst
    · rw [hb] at hst; simp [Body.get] at hst
    · rw [hb] at hst; simp [Body.get] at hst
    · rw [hb, get_status _ _ _ _ (by simp) (by simp)] at hst
      rw [hb, get_valid _ _ _ _ (by simp)]
      rcases statusRules_cases data (newDate lib data.valid_from) (newDate lib data.valid_to)
        (some now) with hr | ⟨m, s2, hr, hs2⟩
      · rw [hr] at hst; simp at hst; exact absurd hst.symm hs
      · rw [hr]
  · intro k hm hq hk hnone
    simp [handler, hm, hq, hk, hnone, sent, jsonBody] at h
    subst h
    simp [Body.get]

/-- C6 on the response for the sample row seen inside its window. -/
theorem valid_iff_active_witness :
    ∃ resp, (handler isoLib
        (storeWith (some sampleRow) (.resolved (.str "2024-03-01T00:00:00.000Z") none))
        (getKey "ABCD-1234")).response = some resp ∧
      resp.body.get "valid" = .bool true ∧
      ((resp.body.get "valid" = .bool true ↔ resp.body.get "status" = .str "active") ∧
      (∀ s, resp.body.get "status" = .str s → s ≠ "active" →
        resp.body.get "valid" = .bool false) ∧
      (∀ k, (getKey "ABCD-1234").method = "GET" →
        (getKey "ABCD-1234").query = some ⟨some k⟩ → k ≠ "" →
        (storeWith (some sampleRow)
          (.resolved (.str "2024-03-01T00:00:00.000Z") none)).maybeSingle k
          = .resolved none none → resp.body.get "valid" = .bool false)) :=
  ⟨_, rfl, by decide, valid_iff_active isoLib _ _ _ rfl⟩

/-- C7: a GET with a non-empty key whose lookup resolves to no row is answered with HTTP 200
and a body made of exactly `valid = false` and a message; the only store call issued is the
lookup, so the server-time call is not made. -/
theorem not_found_response (lib : DateLib) (env : Env) (req : Request) (k : String)
    (hm : req.method = "GET") (hq : req.query = some ⟨some k⟩) (hk : k ≠ "")
    (hnone : env.maybeSingle k = .resolved none none) :
    (handler lib env req).response = some ⟨corsHeaders, 200,
      .json [("valid", .bool false), ("message", .str "卡密不存在")]⟩ ∧
    (handler lib env req).calls = [Call.selectCardKey k] ∧
    Call.getServerTime ∉ (handler lib env req).calls := by
  simp [handler, hm, hq, hk, hnone, sent, jsonBody]

/-- C7 on a store that holds no row. -/
theorem not_found_response_witness :
    (handler isoLib (storeWith none (.resolved (.str "2024-03-01T00:00:00.000Z") none))
      (getKey "ZZZZ-0000")).response = some ⟨corsHeaders, 200,
      .json [("valid", .bool false), ("message", .str "卡密不存在")]⟩ ∧
    (handler isoLib (storeWith none (.resolved (.str "2024-03-01T00:00:00.000Z") none))
      (getKey "ZZZZ-0000")).calls = [Call.selectCardKey "ZZZZ-0000"] ∧
    Call.getServerTime ∉ (handler isoLib
      (storeWith none (.resolved (.str "2024-03-01T00:00:00.000Z") none))
      (getKey "ZZZZ-0000")).calls :=
  not_found_response isoLib _ _ "ZZZZ-0000" rfl rfl (by decide) rfl

/-- C8: a GET with a non-empty key whose lookup reports an error is answered with HTTP 500
and a body holding only `error` with a fixed message.  Two runs that differ in the error
detail (and in anything else the store returned) get the same response; the detail goes to
the log, and the server-time call is not made. -/
theorem lookup_error_is_generic (lib : DateLib) (env env2 : Env) (req : Request) (k : String)
    (row row2 : Option CardKey) (detail detail2 : String)
    (hm : req.method = "GET") (hq : req.query = some ⟨some k⟩) (hk : k ≠ "")
    (herr : env.maybeSingle k = .resolved row (some detail))
    (herr2 : env2.maybeSingle k = .resolved row2 (some detail2)) :
    (handler lib env req).response = some ⟨corsHeaders, 500,
      .json [("error", .str "数据库查询失败")]⟩ ∧
    (handler lib env2 req).response = (handler lib env req).response ∧
    (handler lib env req).calls = [Call.selectCardKey k] ∧
    Call.getServerTime ∉ (handler lib env req).calls ∧
    (handler lib env req).log = [("数据库查询错误:", detail)] := by
  simp [handler, hm, hq, hk, herr, herr2, sent, jsonBody]

/-- C8 on two lookups that fail for different reasons. -/
theorem lookup_error_is_generic_witness :
    (handler isoLib (brokenStore "JWT expired") (getKey "ABCD-1234")).response =
      some ⟨corsHeaders, 500, .json [("error", .str "数据库查询失败")]⟩ ∧
    (handler isoLib (brokenStore "relation card_keys does not exist")
      (getKey "ABCD-1234")).response =
      (handler isoLib (brokenStore "JWT expired") (getKey "ABCD-1234")).response ∧
    (handler isoLib (brokenStore "JWT expired") (getKey "ABCD-1234")).calls =
      [Call.selectCardKey "ABCD-1234"] ∧
    Call.getServerTime ∉ (handler isoLib (brokenStore "JWT expired")
      (getKey "ABCD-1234")).calls ∧
    (handler isoLib (brokenStore "JWT expired") (getKey "ABCD-1234")).log =
      [("数据库查询错误:", "JWT expired")] :=
  lookup_error_is_generic isoLib _ _ _ "ABCD-1234" none none "JWT expired"
    "relation card_keys does not exist" rfl rfl (by decide) rfl rfl

/-! ## The trusted time -/

/-- C9: `getServerTime` returns the store's clock value when the call reports no error and
returns data, and the host clock when the call reports an error or returns no data.  For a
found row, the instant so chosen is the one the rule chain compares the window against and
the one reported as `current_server_time`; an error or an empty result of the clock call
still ends in an HTTP 200 validation result, computed at the host clock's time. -/
theorem trusted_time_selection (lib : DateLib) (env : Env) (req : Request) (k : String)
    (data : CardKey)
    (hm : req.method = "GET") (hq : req.query = some ⟨some k⟩) (hk : k ≠ "")
    (hfound : env.maybeSingle k = .resolved (some data) none) :
    (∀ v, env.rpc = .resolved v none → truthy v = true →
      getServerTime lib env = .ok (newDate lib v)) ∧
    (∀ v e, env.rpc = .resolved v e → e.isSome = true ∨ truthy v = false →
      getServerTime lib env = .ok (some env.now)) ∧
    (∀ now, getServerTime lib env = .ok (some now) →
      ∃ resp, (handler lib env req).response = some resp ∧ resp.status = 200 ∧
        resp.body.get "current_server_time" = .str (lib.toISOString now) ∧
        resp.body.get "status" = .str (statusRules data (newDate lib data.valid_from)
          (newDate lib data.valid_to) (some now)).2.2 ∧
        resp.body.get "valid" = .bool (statusRules data (newDate lib data.valid_from)
          (newDate lib data.valid_to) (some now)).1) ∧
    (∀ v e, env.rpc = .resolved v e → e.isSome = true ∨ truthy v = false →
      ∃ resp, (handler lib env req).response = some resp ∧ resp.status = 200 ∧
        resp.body.get "current_server_time" = .str (lib.toISOString env.now) ∧
        resp.body.get "status" = .str (statusRules data (newDate lib data.valid_from)
          (newDate lib data.valid_to) (some env.now)).2.2 ∧
        resp.body.get "valid" = .bool (statusRules data (newDate lib data.valid_from)
          (newDate lib data.valid_to) (some env.now)).1) := by
  refine ⟨?_, ?_, ?_, ?_⟩
  · intro v hrpc hv
    exact getServerTime_store lib env v hrpc hv
  · intro v e hrpc hcase
    exact getServerTime_fallback lib env v e hrpc hcase
  · intro now hnow
    exact found_result lib env req k data now hm hq hk hfound hnow
  · intro v e hrpc hcase
    exact found_result lib env req k data env.now hm hq hk hfound
      (getServerTime_fallback lib env v e hrpc hcase)

/-- C9 on the sample row: with the store's clock at 2024-07-01 the row is reported `expired`
at that instant; with a failing clock call it is reported `active` at the host clock's
2024-03-01. -/
theorem trusted_time_selection_witness :
    getServerTime isoLib
        (storeWith (some sampleRow) (.resolved (.str "2024-07-01T00:00:00.000Z") none))
      = .ok (some 1719792000000) ∧
    getServerTime isoLib
        (storeWith (some sampleRow) (.resolved .null (some "timeout")))
      = .ok (some 1709251200000) ∧
    (∃ resp, (handler isoLib
          (storeWith (some sampleRow) (.resolved (.str "2024-07-01T00:00:00.000Z") none))
          (getKey "ABCD-1234")).response = some resp ∧ resp.status = 200 ∧
        resp.body.get "current_server_time" = .str "2024-07-01T00:00:00.000Z" ∧
        resp.body.get "status" = .str "expired" ∧ resp.body.get "valid" = .bool false) ∧
    (∃ resp, (handler isoLib
          (storeWith (some sampleRow) (.resolved .null (some "timeout")))
          (getKey "ABCD-1234")).response = some resp ∧ resp.status = 200 ∧
        resp.body.get "current_server_time" = .str "2024-03-01T00:00:00.000Z" ∧
        resp.body.get "status" = .str "active" ∧ resp.body.get "valid" = .bool true) :=
  have atStore := trusted_time_selection isoLib
    (storeWith (some sampleRow) (.resolved (.str "2024-07-01T00:00:00.000Z") none))
    (getKey "ABCD-1234") "ABCD-1234" sampleRow rfl rfl (by decide) rfl
  have atHost := trusted_time_selection isoLib
    (storeWith (some sampleRow) (.resolved .null (some "timeout")))
    (getKey "ABCD-1234") "ABCD-1234" sampleRow rfl rfl (by decide) rfl
  ⟨atStore.1 _ rfl (by decide), atHost.2.1 _ _ rfl (Or.inl rfl),
    atStore.2.2.1 1719792000000 (by rfl), atHost.2.2.2 _ _ rfl (Or.inl rfl)⟩

/-- C10 as amended: for a found row, when the clock call resolves with an error, with no
data, or with a value that `new Date` turns into a valid date, the handler answers HTTP 200
with a validation result that carries `current_server_time`. -/
theorem degraded_clock_still_answers (lib : DateLib) (env : Env) (req : Request) (k : String)
    (data : CardKey) (v : JsVal) (e : Option String)
    (hm : req.method = "GET") (hq : req.query = some ⟨some k⟩) (hk : k ≠ "")
    (hfound : env.maybeSingle k = .resolved (some data) none)
    (hrpc : env.rpc = .resolved v e)
    (hcase : e.isSome = true ∨ truthy v = false ∨ (newDate lib v).isSome = true) :
    ∃ resp iso status valid, (handler lib env req).response = some resp ∧ resp.status = 200 ∧
      resp.body.get "current_server_time" = .str iso ∧
      resp.body.get "status" = .str status ∧ resp.body.get "valid" = .bool valid := by
  have key : ∃ now, getServerTime lib env = .ok (some now) := by
    by_cases hfall : e.isSome = true ∨ truthy v = false
    · exact ⟨env.now, getServerTime_fallback lib env v e hrpc hfall⟩
    · have hdate : (newDate lib v).isSome = true := by
        rcases hcase with h | h | h
        · exact absurd (Or.inl h) hfall
        · exact absurd (Or.inr h) hfall
        · exact h
      have he : e = none := by
        cases e with
        | none => rfl
        | some d => exact absurd (Or.inl rfl) hfall
      have hv : truthy v = true := by
        cases hb : truthy v with
        | false => exact absurd (Or.inr hb) hfall
        | true => rfl
      obtain ⟨t, ht⟩ := Option.isSome_iff_exists.mp hdate
      subst he
      exact ⟨t, by rw [getServerTime_store lib env v hrpc hv, ht]⟩
  obtain ⟨now, hnow⟩ := key
  obtain ⟨resp, h1, h2, h3, h4, h5⟩ := found_result lib env req k data now hm hq hk hfound hnow
  exact ⟨resp, _, _, _, h1, h2, h3, h4, h5⟩

/-- C10 as amended, on a clock call that returns nothing. -/
theorem degraded_clock_still_answers_witness :
    ∃ resp iso status valid, (handler isoLib
        (storeWith (some sampleRow) (.resolved .null none))
        (getKey "ABCD-1234")).response = some resp ∧ resp.status = 200 ∧
      resp.body.get "current_server_time" = .str iso ∧
      resp.body.get "status" = .str status ∧ resp.body.get "valid" = .bool valid :=
  degraded_clock_still_answers isoLib _ _ "ABCD-1234" sampleRow .null none
    rfl rfl (by decide) rfl rfl (Or.inr (Or.inl rfl))

/-- C10 as stated fails: for a found row, a clock call that rejects, and a clock call that
returns a string which is no timestamp, both end in HTTP 500 with the generic error body. -/
theorem clock_failure_gives_500 :
    (handler isoLib
        (storeWith (some sampleRow) (.rejected ⟨"TypeError", "fetch failed"⟩))
        (getKey "ABCD-1234")).response
      = some ⟨corsHeaders, 500, .json [("error", .str "服务器内部错误")]⟩ ∧
    (handler isoLib
        (storeWith (some sampleRow) (.resolved (.str "not a timestamp") none))
        (getKey "ABCD-1234")).response
      = some ⟨corsHeaders, 500, .json [("error", .str "服务器内部错误")]⟩ := by
  constructor <;> decide

/-! ## The gates in front of the lookup -/

/-- C11: a GET whose `key` parameter is absent or empty is answered with HTTP 400 and a body
holding only `error`; no store call is issued, and the response differs from the HTTP 200
`valid = false` response given for a key that is not found. -/
theorem missing_key_is_400 (lib : DateLib) (env : Env) (req : Request) (query : Query)
    (hm : req.method = "GET") (hq : req.query = some query)
    (hkey : query.key = none ∨ query.key = some "") :
    (handler lib env req).response = some ⟨corsHeaders, 400,
      .json [("error", .str "缺少卡密参数: key")]⟩ ∧
    (handler lib env req).calls = [] ∧
    (handler lib env req).response ≠ some ⟨corsHeaders, 200,
      .json [("valid", .bool false), ("message", .str "卡密不存在")]⟩ := by
  rcases hkey with hkey | hkey <;> simp [handler, hm, hq, hkey, sent, jsonBody]

/-- C11 on `GET ?key=` (an empty key) against a store that would find a row. -/
theorem missing_key_is_400_witness :
    (handler isoLib (storeWith (some sampleRow) (.resolved .null none)) (getKey "")).response
      = some ⟨corsHeaders, 400, .json [("error", .str "缺少卡密参数: key")]⟩ ∧
    (handler isoLib (storeWith (some sampleRow) (.resolved .null none)) (getKey "")).calls
      = [] ∧
    (handler isoLib (storeWith (some sampleRow) (.resolved .null none)) (getKey "")).response
      ≠ some ⟨corsHeaders, 200,
        .json [("valid", .bool false), ("message", .str "卡密不存在")]⟩ :=
  missing_key_is_400 isoLib _ _ ⟨some ""⟩ rfl rfl (Or.inr rfl)

/-- C12: a request whose method is neither GET nor OPTIONS is answered with HTTP 405 and a
body holding only `error`, with or without a key (and even without a query object); no store
call is issued. -/
theorem other_method_is_405 (lib : DateLib) (env : Env) (req : Request)
    (hget : req.method ≠ "GET") (hopt : req.method ≠ "OPTIONS") :
    (handler lib env req).response = some ⟨corsHeaders, 405,
      .json [("error", .str "仅支持GET方法")]⟩ ∧
    (handler lib env req).calls = [] := by
  simp [handler, hget, hopt, sent, jsonBody]

/-- C12 on a POST without a key: the answer is 405, not 400. -/
theorem other_method_is_405_witness :
    (handler isoLib (storeWith (some sampleRow) (.resolved .null none))
      ⟨"POST", some ⟨none⟩⟩).response
      = some ⟨corsHeaders, 405, .json [("error", .str "仅支持GET方法")]⟩ ∧
    (handler isoLib (storeWith (some sampleRow) (.resolved .null none))
      ⟨"POST", some ⟨none⟩⟩).calls = [] :=
  other_method_is_405 isoLib _ ⟨"POST", some ⟨none⟩⟩ (by decide) (by decide)

/-- C13: a request with method OPTIONS is answered with HTTP 200 and an empty body, whatever
its query holds; no store call is issued. -/
theorem options_is_empty_200 (lib : DateLib) (env : Env) (req : Request)
    (hopt : req.method = "OPTIONS") :
    (handler lib env req).response = some ⟨corsHeaders, 200, .empty⟩ ∧
    (handler lib env req).calls = [] := by
  simp [handler, hopt, sent]

/-- C13 on an OPTIONS request that carries a key. -/
theorem options_is_empty_200_witness :
    (handler isoLib (storeWith (some sampleRow) (.resolved .null none))
      ⟨"OPTIONS", some ⟨some "ABCD-1234"⟩⟩).response = some ⟨corsHeaders, 200, .empty⟩ ∧
    (handler isoLib (storeWith (some sampleRow) (.resolved .null none))
      ⟨"OPTIONS", some ⟨some "ABCD-1234"⟩⟩).calls = [] :=
  options_is_empty_200 isoLib _ ⟨"OPTIONS", some ⟨some "ABCD-1234"⟩⟩ rfl

/-- Every response is sent with the headers set at the top of the handler. -/
theorem headers_of_response (lib : DateLib) (env : Env) (req : Request) (resp : Response)
    (h : (handler lib env req).response = some resp) : resp.headers = corsHeaders := by
  unfold handler at h
  split_ifs at h with h1 h2
  · simp [sent] at h; subst h; rfl
  · simp [sent] at h; subst h; rfl
  · split at h
    · simp at h
    · split at h
      · simp [sent] at h; subst h; rfl
      · split_ifs at h
        · simp [sent] at h; subst h; rfl
        · simp only at h
          split at h
          · simp [catchBlock] at h; subst h; rfl
          · simp [sent] at h; subst h; rfl
          · simp [sent] at h; subst h; rfl
          · split at h
            · simp [catchBlock] at h; subst h; rfl
            · split at h
              · simp [catchBlock] at h; subst h; rfl
              · simp [sent] at h; subst h; rfl

/-- C17: every response the handler sends, on whichever branch, carries
`Access-Control-Allow-Origin: *` and `Access-Control-Allow-Methods: GET, OPTIONS`. -/
theorem cors_on_every_response (lib : DateLib) (env : Env) (req : Request) (resp : Response)
    (h : (handler lib env req).response = some resp) :
    resp.headers.lookup "Access-Control-Allow-Origin" = some "*" ∧
    resp.headers.lookup "Access-Control-Allow-Methods" = some "GET, OPTIONS" := by
  rw [headers_of_response lib env req resp h]
  constructor <;> decide

/-- C17 on the internal-error response that follows a rejected lookup. -/
theorem cors_on_every_response_witness :
    ∃ resp, (handler isoLib (rejectingStore ⟨"TypeError", "fetch failed"⟩)
        (getKey "ABCD-1234")).response = some resp ∧ resp.status = 500 ∧
      resp.headers.lookup "Access-Control-Allow-Origin" = some "*" ∧
      resp.headers.lookup "Access-Control-Allow-Methods" = some "GET, OPTIONS" :=
  ⟨_, rfl, rfl, cors_on_every_response isoLib (rejectingStore ⟨"TypeError", "fetch failed"⟩)
    (getKey "ABCD-1234") _ rfl⟩

/-! ## Exceptions -/

/-- C14: for every request that carries a query object, the handler sends a response and no
exception escapes it; and wherever something throws on the way (the lookup call rejects, the
server-time call rejects, or an invalid trusted time makes `toISOString` throw while the
response object is built), that response is HTTP 500 whose body holds only `error` with one
fixed message, the same for every exception. -/
theorem exception_gives_generic_500 (lib : DateLib) (env : Env) (req : Request)
    (query : Query) (hq : req.query = some query) :
    (handler lib env req).uncaught = none ∧
    (∃ resp, (handler lib env req).response = some resp) ∧
    ∀ k, req.method = "GET" → query.key = some k → k ≠ "" →
      ((∃ reason, env.maybeSingle k = .rejected reason) ∨
        ∃ data, env.maybeSingle k = .resolved (some data) none ∧
          ((∃ reason, env.rpc = .rejected reason) ∨ getServerTime lib env = .ok none)) →
      (handler lib env req).response = some ⟨corsHeaders, 500,
        .json [("error", .str "服务器内部错误")]⟩ := by
  have hsent : (handler lib env req).uncaught = none ∧
      ∃ resp, (handler lib env req).response = some resp := by
    unfold handler
    rw [hq]
    split_ifs
    · exact ⟨rfl, _, rfl⟩
    · exact ⟨rfl, _, rfl⟩
    · simp only
      split
      · exact ⟨rfl, _, rfl⟩
      · split_ifs
        · exact ⟨rfl, _, rfl⟩
        · split
          · exact ⟨rfl, _, rfl⟩
          · exact ⟨rfl, _, rfl⟩
          · exact ⟨rfl, _, rfl⟩
          · split
            · exact ⟨rfl, _, rfl⟩
            · split
              · exact ⟨rfl, _, rfl⟩
              · exact ⟨rfl, _, rfl⟩
  refine ⟨hsent.1, hsent.2, ?_⟩
  intro k hm hkey hk hthrow
  have hq2 : req.query = some ⟨some k⟩ := by rw [hq, ← hkey]
  rcases hthrow with ⟨reason, hrej⟩ | ⟨data, hfound, ⟨reason, hrej⟩ | hbad⟩
  · simp [handler, hm, hq2, hk, hrej, catchBlock, jsonBody]
  · simp [handler, hm, hq2, hk, hfound, getServerTime, hrej, catchBlock, jsonBody]
  · simp [handler, hm, hq2, hk, hfound, hbad, toISOString, catchBlock, jsonBody]

/-- C14 on three runs that throw at different points: the lookup rejects; the row is found and
the server-time call rejects; the row is found and the trusted time is an invalid date.  Each
ends in the same HTTP 500 response, with nothing escaping. -/
theorem exception_gives_generic_500_witness :
    ((handler isoLib (rejectingStore ⟨"TypeError", "fetch failed"⟩)
        (getKey "ABCD-1234")).uncaught = none ∧
      (handler isoLib (rejectingStore ⟨"TypeError", "fetch failed"⟩)
        (getKey "ABCD-1234")).response
        = some ⟨corsHeaders, 500, .json [("error", .str "服务器内部错误")]⟩) ∧
    ((handler isoLib (storeWith (some sampleRow) (.rejected ⟨"Error", "socket hang up"⟩))
        (getKey "ABCD-1234")).uncaught = none ∧
      (handler isoLib (storeWith (some sampleRow) (.rejected ⟨"Error", "socket hang up"⟩))
        (getKey "ABCD-1234")).response
        = some ⟨corsHeaders, 500, .json [("error", .str "服务器内部错误")]⟩) ∧
    ((handler isoLib (storeWith (some sampleRow) (.resolved (.str "not a timestamp") none))
        (getKey "ABCD-1234")).uncaught = none ∧
      (handler isoLib (storeWith (some sampleRow) (.resolved (.str "not a timestamp") none))
        (getKey "ABCD-1234")).response
        = some ⟨corsHeaders, 500, .json [("error", .str "服务器内部错误")]⟩) :=
  have atLookup := exception_gives_generic_500 isoLib
    (rejectingStore ⟨"TypeError", "fetch failed"⟩) (getKey "ABCD-1234") ⟨some "ABCD-1234"⟩ rfl
  have atClock := exception_gives_generic_500 isoLib
    (storeWith (some sampleRow) (.rejected ⟨"Error", "socket hang up"⟩)) (getKey "ABCD-1234")
    ⟨some "ABCD-1234"⟩ rfl
  have atAssembly := exception_gives_generic_500 isoLib
    (storeWith (some sampleRow) (.resolved (.str "not a timestamp") none))
    (getKey "ABCD-1234") ⟨some "ABCD-1234"⟩ rfl
  ⟨⟨atLookup.1, atLookup.2.2 "ABCD-1234" rfl rfl (by decide) (Or.inl ⟨_, rfl⟩)⟩,
    ⟨atClock.1, atClock.2.2 "ABCD-1234" rfl rfl (by decide)
      (Or.inr ⟨sampleRow, rfl, Or.inl ⟨_, rfl⟩⟩)⟩,
    ⟨atAssembly.1, atAssembly.2.2 "ABCD-1234" rfl rfl (by decide)
      (Or.inr ⟨sampleRow, rfl, Or.inr (by rfl)⟩)⟩⟩

/-! ## What a validation result carries -/

/-- Reading back a property that follows properties of other names in a serialised object
and is followed by properties of other names. -/
theorem get_echo (name : String) (v : JsVal) (pre post : List (String × JsVal))
    (hpre : ∀ p ∈ pre, p.1 ≠ name) (hpost : ∀ p ∈ post, p.1 ≠ name) :
    (jsonBody (pre ++ (name, v) :: post)).get name = v := by
  rw [get_jsonBody]
  have hskip : ∀ l : List (String × JsVal), (∀ p ∈ l, p.1 ≠ name) →
      l.find? (fun p => p.2 != JsVal.undefined && p.1 == name) = none := by
    intro l hl
    rw [List.find?_eq_none]
    intro p hp
    simp [hl p hp]
  rw [List.find?_append, hskip pre hpre, List.find?_cons]
  by_cases hv : v = JsVal.undefined
  · simp [hv, hskip post hpost]
  · have hne : (v != JsVal.undefined) = true := by simp [hv]
    simp [hne]

/-- C15: in the validation result for a found row, `key`, `note`, `activated_at`,
`expires_at`, `total_days` and `remaining_days` are the row's stored `key`, `note`,
`valid_from`, `valid_to`, `total_days` and `remaining_days`, unchanged, whatever the status
is. -/
theorem echoed_fields_unchanged (lib : DateLib) (env : Env) (req : Request) (k : String)
    (data : CardKey) (now : Int)
    (hm : req.method = "GET") (hq : req.query = some ⟨some k⟩) (hk : k ≠ "")
    (hfound : env.maybeSingle k = .resolved (some data) none)
    (hnow : getServerTime lib env = .ok (some now)) :
    ∃ resp, (handler lib env req).response = some resp ∧ resp.status = 200 ∧
      resp.body.get "key" = data.key ∧
      resp.body.get "note" = data.note ∧
      resp.body.get "activated_at" = data.valid_from ∧
      resp.body.get "expires_at" = data.valid_to ∧
      resp.body.get "total_days" = data.total_days ∧
      resp.body.get "remaining_days" = data.remaining_days := by
  rw [handler_found lib env req k data now hm hq hk hfound hnow]
  refine ⟨_, rfl, rfl, ?_, ?_, ?_, ?_, ?_, ?_⟩
  · exact get_echo "key" _ [_, _, _] _ (by simp) (by simp)
  · exact get_echo "note" _ [_, _, _, _] _ (by simp) (by simp)
  · exact get_echo "activated_at" _ [_, _, _, _, _] _ (by simp) (by simp)
  · exact get_echo "expires_at" _ [_, _, _, _, _, _] _ (by simp) (by simp)
  · exact get_echo "total_days" _ [_, _, _, _, _, _, _, _] _ (by simp) (by simp)
  · exact get_echo "remaining_days" _ [_, _, _, _, _, _, _, _, _] _ (by simp) (by simp)

/-- C15 on a used row whose timestamps are stored with an offset and microseconds: they come
back as stored, not as `toISOString` would write them. -/
theorem echoed_fields_unchanged_witness :
    ∃ resp, (handler isoLib
        (storeWith (some { sampleRow with
            used_at := .str "2024-01-15T08:30:00+00:00"
            valid_from := .str "2024-01-01T08:00:00.123456+08:00"
            note := .null })
          (.resolved (.str "2024-03-01T00:00:00.000Z") none))
        (getKey "ABCD-1234")).response = some resp ∧ resp.status = 200 ∧
      resp.body.get "key" = .str "ABCD-1234" ∧
      resp.body.get "note" = .null ∧
      resp.body.get "activated_at" = .str "2024-01-01T08:00:00.123456+08:00" ∧
      resp.body.get "expires_at" = .str "2024-06-01T00:00:00.000Z" ∧
      resp.body.get "total_days" = .num 152 ∧
      resp.body.get "remaining_days" = .num 92 :=
  echoed_fields_unchanged isoLib
    (storeWith (some { sampleRow with
        used_at := .str "2024-01-15T08:30:00+00:00"
        valid_from := .str "2024-01-01T08:00:00.123456+08:00"
        note := .null })
      (.resolved (.str "2024-03-01T00:00:00.000Z") none))
    (getKey "ABCD-1234") "ABCD-1234" _ 1709251200000 rfl rfl (by decide) rfl (by rfl)

/-- Reading `message` back from a body that starts with the three computed properties. -/
theorem get_message (v s m : JsVal) (rest : List (String × JsVal)) (hv : v ≠ .undefined)
    (hs : s ≠ .undefined) (hmsg : m ≠ .undefined) :
    (jsonBody (("valid", v) :: ("status", s) :: ("message", m) :: rest)).get "message" = m := by
  simp [jsonBody, Body.get, List.filter_cons, hv, hs, hmsg]

/-- The five results the rule chain can end in. -/
theorem statusRules_mem (data : CardKey) (a b c : JsDate) :
    statusRules data a b c ∈
      [(false, "卡密已停用", "disabled"), (false, "卡密已使用", "used"),
       (false, "卡密已过期", "expired"), (false, "卡密未生效", "pending"),
       (true, "卡密有效", "active")] := by
  unfold statusRules
  split_ifs <;> simp

/-- Among the five results, the message is a function of the status. -/
theorem message_of_status :
    ∀ x ∈ [(false, "卡密已停用", "disabled"), (false, "卡密已使用", "used"),
       (false, "卡密已过期", "expired"), (false, "卡密未生效", "pending"),
       (true, "卡密有效", "active")],
    ∀ y ∈ [(false, "卡密已停用", "disabled"), (false, "卡密已使用", "used"),
       (false, "卡密已过期", "expired"), (false, "卡密未生效", "pending"),
       (true, "卡密有效", "active")],
    x.2.2 = y.2.2 → x.2.1 = y.2.1 := by
  decide

/-- The statuses of the five results. -/
theorem status_of_mem :
    ∀ x ∈ [(false, "卡密已停用", "disabled"), (false, "卡密已使用", "used"),
       (false, "卡密已过期", "expired"), (false, "卡密未生效", "pending"),
       (true, "卡密有效", "active")],
    x.2.2 ∈ ["disabled", "used", "expired", "pending", "active"] ∧ x.2.2 ≠ "invalid" := by
  decide

/-- C16: the validation result for a found row has a status among `disabled`, `used`,
`expired`, `pending`, `active` (never the placeholder `invalid`), and its message is the one
every response with that status carries, whatever request, store and clock produced it. -/
theorem status_closed_message_fixed (lib : DateLib) (env : Env) (req : Request) (k : String)
    (data : CardKey) (now : Int)
    (hm : req.method = "GET") (hq : req.query = some ⟨some k⟩) (hk : k ≠ "")
    (hfound : env.maybeSingle k = .resolved (some data) none)
    (hnow : getServerTime lib env = .ok (some now)) :
    ∃ resp s m, (handler lib env req).response = some resp ∧ resp.status = 200 ∧
      resp.body.get "status" = .str s ∧ resp.body.get "message" = .str m ∧
      s ∈ ["disabled", "used", "expired", "pending", "active"] ∧ s ≠ "invalid" ∧
      ∀ (lib2 : DateLib) (env2 : Env) (req2 : Request) (resp2 : Response),
        (handler lib2 env2 req2).response = some resp2 →
        resp2.body.get "status" = .str s → resp2.body.get "message" = .str m := by
  rw [handler_found lib env req k data now hm hq hk hfound hnow]
  have hmem := statusRules_mem data (newDate lib data.valid_from) (newDate lib data.valid_to)
    (some now)
  refine ⟨_, _, _, rfl, rfl, get_status _ _ _ _ (by simp) (by simp),
    get_message _ _ _ _ (by simp) (by simp) (by simp),
    (status_of_mem _ hmem).1, (status_of_mem _ hmem).2, ?_⟩
  intro lib2 env2 req2 resp2 h2 hs2
  rcases body_cases lib2 env2 req2 resp2 h2 with hb | ⟨msg, hb⟩ | hb | ⟨data2, now2, rest, hb⟩
  · rw [hb] at hs2; simp [Body.get] at hs2
  · rw [hb] at hs2; simp [Body.get] at hs2
  · rw [hb] at hs2; simp [Body.get] at hs2
  · rw [hb, get_status _ _ _ _ (by simp) (by simp)] at hs2
    rw [hb, get_message _ _ _ _ (by simp) (by simp) (by simp)]
    have hmem2 := statusRules_mem data2 (newDate lib2 data2.valid_from)
      (newDate lib2 data2.valid_to) (some now2)
    have hsame := message_of_status _ hmem2 _ hmem (JsVal.str.inj hs2)
    rw [hsame]

/-- C16 on the sample row seen after its window has closed. -/
theorem status_closed_message_fixed_witness :
    ∃ resp s m, (handler isoLib
        (storeWith (some sampleRow) (.resolved (.str "2024-07-01T00:00:00.000Z") none))
        (getKey "ABCD-1234")).response = some resp ∧ resp.status = 200 ∧
      resp.body.get "status" = .str s ∧ resp.body.get "message" = .str m ∧
      s ∈ ["disabled", "used", "expired", "pending", "active"] ∧ s ≠ "invalid" ∧
      ∀ (lib2 : DateLib) (env2 : Env) (req2 : Request) (resp2 : Response),
        (handler lib2 env2 req2).response = some resp2 →
        resp2.body.get "status" = .str s → resp2.body.get "message" = .str m :=
  status_closed_message_fixed isoLib
    (storeWith (some sampleRow) (.resolved (.str "2024-07-01T00:00:00.000Z") none))
    (getKey "ABCD-1234") "ABCD-1234" sampleRow 1719792000000 rfl rfl (by decide) rfl (by rfl)

/-! ## Dependence on the inputs -/

/-- C18: two runs whose lookups settle to the same outcome and whose trusted times are the
same send the same response, in particular the same HTTP status code, `status` and `valid`.
The two request keys need not be equal: the response depends on the key only through what the
lookup returns. -/
theorem same_inputs_same_answer (lib : DateLib) (env env2 : Env) (req req2 : Request)
    (k k2 : String)
    (hm : req.method = "GET") (hq : req.query = some ⟨some k⟩) (hk : k ≠ "")
    (hm2 : req2.method = "GET") (hq2 : req2.query = some ⟨some k2⟩) (hk2 : k2 ≠ "")
    (hlook : env.maybeSingle k = env2.maybeSingle k2)
    (htime : getServerTime lib env = getServerTime lib env2) :
    (handler lib env req).response = (handler lib env2 req2).response ∧
    ∀ resp resp2, (handler lib env req).response = some resp →
      (handler lib env2 req2).response = some resp2 →
      resp.status = resp2.status ∧
      resp.body.get "status" = resp2.body.get "status" ∧
      resp.body.get "valid" = resp2.body.get "valid" := by
  have hsame : (handler lib env req).response = (handler lib env2 req2).response := by
    simp only [handler, hm, hq, hk, hm2, hq2, hk2, hlook, htime]
    simp only [String.reduceEq, reduceIte, ne_eq, not_true_eq_false]
    cases env2.maybeSingle k2 with
    | rejected reason => rfl
    | resolved row error =>
      cases row with
      | none => cases error <;> rfl
      | some data =>
        cases error with
        | some detail => rfl
        | none =>
          simp only
          cases getServerTime lib env2 with
          | error err => rfl
          | ok serverTime =>
            simp only
            cases toISOString lib serverTime <;> rfl
  refine ⟨hsame, ?_⟩
  intro resp resp2 h1 h2
  rw [hsame, h2] at h1
  cases h1
  exact ⟨rfl, rfl, rfl⟩

/-- C18 on two requests with different keys that find the same row, one timed by the store's
clock and one by the host clock, both reading 2024-03-01. -/
theorem same_inputs_same_answer_witness :
    (handler isoLib
        (storeWith (some sampleRow) (.resolved (.str "2024-03-01T00:00:00.000Z") none))
        (getKey "ABCD-1234")).response
      = (handler isoLib
        (storeWith (some sampleRow) (.resolved .null (some "timeout")))
        (getKey "WXYZ-9999")).response ∧
    ∀ resp resp2, (handler isoLib
        (storeWith (some sampleRow) (.resolved (.str "2024-03-01T00:00:00.000Z") none))
        (getKey "ABCD-1234")).response = some resp →
      (handler isoLib
        (storeWith (some sampleRow) (.resolved .null (some "timeout")))
        (getKey "WXYZ-9999")).response = some resp2 →
      resp.status = resp2.status ∧
      resp.body.get "status" = resp2.body.get "status" ∧
      resp.body.get "valid" = resp2.body.get "valid" :=
  same_inputs_same_answer isoLib
    (storeWith (some sampleRow) (.resolved (.str "2024-03-01T00:00:00.000Z") none))
    (storeWith (some sampleRow) (.resolved .null (some "timeout")))
    (getKey "ABCD-1234") (getKey "WXYZ-9999") "ABCD-1234" "WXYZ-9999"
    rfl rfl (by decide) rfl rfl (by decide) rfl (by rfl)

/-- C19 as amended: when the validation result for a found row has `valid = true`, the row's
`is_active` is truthy, its `used_at` is falsy, and each of `valid_from`, `valid_to` that
converts to a valid date satisfies its bound at the trusted time `now`; when both convert,
`validFrom ≤ now ≤ validTo`, hence `validFrom ≤ validTo`. -/
theorem active_is_sound (lib : DateLib) (env : Env) (req : Request) (k : String)
    (data : CardKey) (now : Int) (resp : Response)
    (hm : req.method = "GET") (hq : req.query = some ⟨some k⟩) (hk : k ≠ "")
    (hfound : env.maybeSingle k = .resolved (some data) none)
    (hnow : getServerTime lib env = .ok (some now))
    (hresp : (handler lib env req).response = some resp)
    (hvalid : resp.body.get "valid" = .bool true) :
    truthy data.is_active = true ∧ truthy data.used_at = false ∧
    (∀ validTo, newDate lib data.valid_to = some validTo → now ≤ validTo) ∧
    (∀ validFrom, newDate lib data.valid_from = some validFrom → validFrom ≤ now) ∧
    (∀ validFrom validTo, newDate lib data.valid_from = some validFrom →
      newDate lib data.valid_to = some validTo →
      validFrom ≤ now ∧ now ≤ validTo ∧ validFrom ≤ validTo) := by
  obtain ⟨resp0, h0, -, -, hv⟩ := found_status lib env req k data now hm hq hk hfound hnow
  rw [hresp] at h0
  cases h0
  rw [hvalid] at hv
  have hflag : (statusRules data (newDate lib data.valid_from) (newDate lib data.valid_to)
      (some now)).1 = true := (JsVal.bool.inj hv).symm
  have hall : truthy data.is_active = true ∧ truthy data.used_at = false ∧
      dateLt (newDate lib data.valid_to) (some now) = false ∧
      dateLt (some now) (newDate lib data.valid_from) = false := by
    unfold statusRules dateGt at hflag
    split_ifs at hflag with h1 h2 h3 h4
    refine ⟨?_, ?_, ?_, ?_⟩
    · simpa using h1
    · simpa using h2
    · simpa using h3
    · simpa using h4
  obtain ⟨ha, hu, hto, hfrom⟩ := hall
  have hhi : ∀ validTo, newDate lib data.valid_to = some validTo → now ≤ validTo := by
    intro validTo hvt
    rw [hvt] at hto
    simpa [dateLt] using hto
  have hlo : ∀ validFrom, newDate lib data.valid_from = some validFrom → validFrom ≤ now := by
    intro validFrom hvf
    rw [hvf] at hfrom
    simpa [dateLt] using hfrom
  exact ⟨ha, hu, hhi, hlo, fun validFrom validTo hvf hvt =>
    ⟨hlo _ hvf, hhi _ hvt, le_trans (hlo _ hvf) (hhi _ hvt)⟩⟩

/-- C19 as amended, on the sample row seen inside its window. -/
theorem active_is_sound_witness :
    truthy sampleRow.is_active = true ∧ truthy sampleRow.used_at = false ∧
    (∀ validTo, newDate isoLib sampleRow.valid_to = some validTo →
      (1709251200000 : Int) ≤ validTo) ∧
    (∀ validFrom, newDate isoLib sampleRow.valid_from = some validFrom →
      validFrom ≤ (1709251200000 : Int)) ∧
    (∀ validFrom validTo, newDate isoLib sampleRow.valid_from = some validFrom →
      newDate isoLib sampleRow.valid_to = some validTo →
      validFrom ≤ (1709251200000 : Int) ∧ (1709251200000 : Int) ≤ validTo ∧
        validFrom ≤ validTo) :=
  active_is_sound isoLib
    (storeWith (some sampleRow) (.resolved (.str "2024-03-01T00:00:00.000Z") none))
    (getKey "ABCD-1234") "ABCD-1234" sampleRow 1709251200000
    ⟨corsHeaders, 200, jsonBody
      [("valid", .bool true), ("status", .str "active"), ("message", .str "卡密有效"),
       ("key", .str "ABCD-1234"), ("note", .str "trial"),
       ("activated_at", .str "2024-01-01T00:00:00.000Z"),
       ("expires_at", .str "2024-06-01T00:00:00.000Z"),
       ("current_server_time", .str "2024-03-01T00:00:00.000Z"),
       ("total_days", .num 152), ("remaining_days", .num 92)]⟩
    rfl rfl (by decide) rfl (by rfl) (by decide) (by decide)

/-- C19 as stated fails: a row whose `valid_to` is a string that is no timestamp is reported
`active` with `valid = true` long after any window, although `valid_to` denotes no instant. -/
theorem unparseable_window_is_active :
    (∃ resp, (handler isoLib
        (storeWith (some { sampleRow with valid_to := .str "not a timestamp" })
          (.resolved (.str "2030-01-01T00:00:00.000Z") none))
        (getKey "ABCD-1234")).response = some resp ∧
      resp.body.get "status" = .str "active" ∧ resp.body.get "valid" = .bool true) ∧
    newDate isoLib (.str "not a timestamp") = none :=
  ⟨⟨_, rfl, by decide, by decide⟩, by decide⟩

/-- The status of an active, unused row with a well-formed window, as a function of the trusted
time. -/
theorem status_of_window (data : CardKey) (validFrom validTo t : Int)
    (hactive : data.is_active = .bool true) (hused : data.used_at = .null) :
    (statusRules data (some validFrom) (some validTo) (some t)).2.2 =
      if validTo < t then "expired" else if t < validFrom then "pending" else "active" := by
  simp only [statusRules, hactive, hused, truthy, dateLt, dateGt]
  by_cases h1 : validTo < t
  · simp [h1]
  · by_cases h2 : t < validFrom
    · simp [h1, h2]
    · simp [h1, h2]

/-- C20: for a row with `is_active` true, `used_at` null and a well-formed window, and trusted
times `t ≤ t2`: `expired` at `t` stays `expired` at `t2`; `pending` at `t2` was `pending` at
`t`; and `active` at `t` is `active` or `expired` at `t2`. -/
theorem status_monotone_in_time (lib : DateLib) (env env2 : Env) (req : Request) (k : String)
    (data : CardKey) (t t2 validFrom validTo : Int)
    (hm : req.method = "GET") (hq : req.query = some ⟨some k⟩) (hk : k ≠ "")
    (hfound : env.maybeSingle k = .resolved (some data) none)
    (hfound2 : env2.maybeSingle k = .resolved (some data) none)
    (hactive : data.is_active = .bool true) (hused : data.used_at = .null)
    (hfrom : newDate lib data.valid_from = some validFrom)
    (hto : newDate lib data.valid_to = some validTo)
    (ht : getServerTime lib env = .ok (some t))
    (ht2 : getServerTime lib env2 = .ok (some t2))
    (hle : t ≤ t2) :
    ∃ resp resp2 s s2, (handler lib env req).response = some resp ∧
      (handler lib env2 req).response = some resp2 ∧
      resp.body.get "status" = .str s ∧ resp2.body.get "status" = .str s2 ∧
      (s = "expired" → s2 = "expired") ∧
      (s2 = "pending" → s = "pending") ∧
      (s = "active" → s2 = "active" ∨ s2 = "expired") := by
  obtain ⟨resp, hr, -, hs, -⟩ := found_status lib env req k data t hm hq hk hfound ht
  obtain ⟨resp2, hr2, -, hs2, -⟩ := found_status lib env2 req k data t2 hm hq hk hfound2 ht2
  rw [hfrom, hto, status_of_window data validFrom validTo t hactive hused] at hs
  rw [hfrom, hto, status_of_window data validFrom validTo t2 hactive hused] at hs2
  refine ⟨resp, resp2, _, _, hr, hr2, hs, hs2, ?_, ?_, ?_⟩
  · split_ifs <;> simp <;> omega
  · split_ifs <;> simp <;> omega
  · split_ifs <;> simp
    omega

/-- C20 on the sample row (valid 2024-01-01 to 2024-06-01) seen at 2024-03-01 and again at
2024-07-01: `active`, then `expired`. -/
theorem status_monotone_in_time_witness :
    ∃ resp resp2 s s2, (handler isoLib
        (storeWith (some sampleRow) (.resolved (.str "2024-03-01T00:00:00.000Z") none))
        (getKey "ABCD-1234")).response = some resp ∧
      (handler isoLib
        (storeWith (some sampleRow) (.resolved (.str "2024-07-01T00:00:00.000Z") none))
        (getKey "ABCD-1234")).response = some resp2 ∧
      resp.body.get "status" = .str s ∧ resp2.body.get "status" = .str s2 ∧
      (s = "expired" → s2 = "expired") ∧
      (s2 = "pending" → s = "pending") ∧
      (s = "active" → s2 = "active" ∨ s2 = "expired") :=
  status_monotone_in_time isoLib
    (storeWith (some sampleRow) (.resolved (.str "2024-03-01T00:00:00.000Z") none))
    (storeWith (some sampleRow) (.resolved (.str "2024-07-01T00:00:00.000Z") none))
    (getKey "ABCD-1234") "ABCD-1234" sampleRow 1709251200000 1719792000000
    1704067200000 1717200000000
    rfl rfl (by decide) rfl rfl rfl rfl (by decide) (by decide) (by rfl) (by rfl) (by decide)

end KeysApi
